import Mathlib

/-!
Verification of the crud_senai authentication core.

Shallow embedding of `src/crud-senai-api/src/services/auth.service.js`
(the `loginWithLock` service), `src/crud-senai-api/src/middlewares/auth.middleware.js`
(`requireAuth`) and the `/auth/me` route of
`src/crud-senai-api/src/routes/auth.routes.js`.

Modelling conventions:
- Timestamps are integers in milliseconds (the value of `Date.now()`);
  JWT `exp` is in seconds, as in the `jsonwebtoken` library.
- The database row for one account is an `Account` value; `findByEmail`
  yields `Option Account`.  `loginWithLock` returns the HTTP-mappable
  result together with the post-call state of the row (the effect of the
  `UPDATE` statements), so frame conditions are equalities on the row.
- `bcrypt.compare` is an opaque capability, passed as a parameter
  `verify : String → String → Bool`.
- Environment configuration (`MAX_LOGIN_ATTEMPTS`, `LOCK_MINUTES`,
  `JWT_SECRET`, `JWT_EXPIRES_IN`) is collected in a `Config` record.
- A signed JWT is modelled as its decoded payload (an association list of
  claims) together with the key it was signed with; `jwt.sign` appends the
  standard `exp` claim, `jwt.verify` checks key and expiry.
-/

namespace CrudSenai

/-- A JSON scalar value, enough to express JWT claims and response fields. -/
inductive JVal where
  | str : String → JVal
  | num : Int → JVal
  | bool : Bool → JVal
  deriving Repr, DecidableEq

/-- One row of the `users` table, restricted to the columns selected by
`loginWithLock` (auth.service.js lines 31-34). `locked_until = none` models
SQL NULL. -/
structure Account where
  id : Nat
  name : String
  email : String
  password_hash : String
  profile : String
  status : String
  failed_attempts : Nat
  locked_until : Option Int
  deriving Repr, DecidableEq

/-- Environment configuration read at module load (auth.service.js lines
11 and 14, jwt options at lines 117-119). `JWT_EXPIRES_IN` is held in
seconds; the source default "1h" is 3600. -/
structure Config where
  MAX : Nat
  LOCK_MINUTES : Nat
  JWT_SECRET : String
  JWT_EXPIRES_IN : Nat
  deriving Repr, DecidableEq

/-- auth.service.js lines 18-21: current time plus `min` minutes. -/
def nowPlusMinutes (now : Int) (min : Nat) : Int :=
  now + min * 60 * 1000

/-- The lock test of auth.service.js line 60:
`user.locked_until && new Date(user.locked_until) > new Date()`. -/
def isLocked (now : Int) (locked_until : Option Int) : Bool :=
  match locked_until with
  | none => false
  | some t => now < t

/-- A signed JWT, modelled as its decoded claim set plus the signing key. -/
structure Token where
  payload : List (String × JVal)
  signedWith : String
  deriving Repr, DecidableEq

/-- `jwt.sign(payload, secret, { expiresIn })`: the library appends the
standard `exp` claim, `expiresIn` seconds after issuance (issuance time in
whole seconds). -/
def jwtSign (payload : List (String × JVal)) (secret : String)
    (nowMs : Int) (expiresInSeconds : Nat) : Token :=
  { payload := payload ++ [("exp", JVal.num (nowMs / 1000 + expiresInSeconds))],
    signedWith := secret }

/-- Expiry part of `jwt.verify`: a token is not expired while the current
time (seconds) is strictly before its `exp` claim. -/
def notExpired (payload : List (String × JVal)) (nowSec : Int) : Bool :=
  match List.lookup "exp" payload with
  | some (JVal.num e) => decide (nowSec < e)
  | _ => true

/-- `jwt.verify(token, secret)`: yields the decoded payload when the
signature matches the key and the token is not expired, otherwise fails. -/
def jwtVerify (t : Token) (secret : String) (nowSec : Int) :
    Option (List (String × JVal)) :=
  if t.signedWith = secret ∧ notExpired t.payload nowSec = true then
    some t.payload
  else
    none

/-- Success payload of a login: the signed token and the public projection
of the user (auth.service.js lines 129-134). -/
structure LoginData where
  token : Token
  user : List (String × JVal)
  deriving Repr, DecidableEq

/-- The discriminated result `loginWithLock` returns to the route layer:
`{ ok, statusCode, message? , data? }`. -/
structure LoginResult where
  ok : Bool
  statusCode : Nat
  message : Option String
  data : Option LoginData
  deriving Repr, DecidableEq

/-- auth.service.js line 41: neutral message for unknown email and for a
wrong password. -/
def invalidMsg : String := "Credenciais inválidas."

/-- The `UPDATE users SET failed_attempts = ? WHERE id = ?` statement of
auth.service.js lines 92-95, applied to the current row state: an
unconditional write keyed only on the id. -/
def updateFailedAttempts (db : Account) (newFails : Nat) : Account :=
  { db with failed_attempts := newFails }

/-- The `UPDATE users SET failed_attempts = ?, locked_until = ? WHERE id = ?`
statement of auth.service.js lines 80-85, applied to the current row state:
an unconditional write keyed only on the id. -/
def updateFailLock (db : Account) (newFails : Nat) (lockedUntil : Int) : Account :=
  { db with failed_attempts := newFails, locked_until := some lockedUntil }

/-- The wrong-password branch of auth.service.js lines 70-95, split into
its read part (the counter observed in `readRow`, fetched by the initial
SELECT) and its write part (the UPDATE applied to the row state `db` at
write time).  In a sequential call `readRow` and `db` coincide; under
concurrent calls they may differ, which is what makes lost updates
expressible. -/
def failureWrite (cfg : Config) (readRow : Account) (now : Int)
    (db : Account) : Account :=
  let newFails := min (readRow.failed_attempts + 1) 255
  if cfg.MAX ≤ newFails then
    updateFailLock db newFails (nowPlusMinutes now cfg.LOCK_MINUTES)
  else
    updateFailedAttempts db newFails

/-- auth.service.js lines 25-136, `loginWithLock`.  `row` is the result of
the SELECT by email; the second component of the result is the state of
that row after the call (unchanged when no UPDATE ran, `none` when no row
matched the email). -/
def loginWithLock (cfg : Config) (verify : String → String → Bool)
    (row : Option Account) (password : String) (now : Int) :
    LoginResult × Option Account :=
  match row with
  | none =>
      ({ ok := false, statusCode := 401, message := some invalidMsg, data := none }, none)
  | some user =>
      if user.status ≠ "ACTIVE" then
        ({ ok := false, statusCode := 403, message := some "Usuário inativo.", data := none },
         some user)
      else if isLocked now user.locked_until then
        ({ ok := false, statusCode := 423,
           message := some "Usuário bloqueado temporariamente.", data := none },
         some user)
      else
        let passOk := verify password user.password_hash
        if passOk = false then
          let newFails := min (user.failed_attempts + 1) 255
          if cfg.MAX ≤ newFails then
            ({ ok := false, statusCode := 423,
               message := some "3 tentativas incorretas. Usuário bloqueado.", data := none },
             some (updateFailLock user newFails (nowPlusMinutes now cfg.LOCK_MINUTES)))
          else
            ({ ok := false, statusCode := 401, message := some invalidMsg, data := none },
             some (updateFailedAttempts user newFails))
        else
          let user2 :=
            if 0 < user.failed_attempts ∨ user.locked_until.isSome = true then
              { user with failed_attempts := 0, locked_until := none }
            else user
          let token := jwtSign
            [("sub", JVal.str (toString user.id)), ("profile", JVal.str user.profile)]
            cfg.JWT_SECRET now cfg.JWT_EXPIRES_IN
          ({ ok := true, statusCode := 200, message := none,
             data := some
               { token := token,
                 user := [("id", JVal.num user.id), ("name", JVal.str user.name),
                          ("email", JVal.str user.email), ("profile", JVal.str user.profile)] } },
           some user2)

/-- One login attempt against an existing row, returning the result and the
new row state. -/
def loginStep (cfg : Config) (verify : String → String → Bool)
    (u : Account) (password : String) (now : Int) : LoginResult × Account :=
  let out := loginWithLock cfg verify (some u) password now
  (out.1, out.2.getD u)

/-- `n` wrong-password attempts in a row at time `now`. -/
def iterWrong (cfg : Config) (verify : String → String → Bool)
    (password : String) (now : Int) : Nat → Account → Account
  | 0, u => u
  | n + 1, u => (loginStep cfg verify (iterWrong cfg verify password now n u) password now).2

/-- The response body of `GET /auth/me` (auth.routes.js lines 68-73):
`{ ok: true, auth: req.auth }` where `req.auth` maps `userId` and
`profile` to the corresponding token claims (auth.middleware.js lines
33-38); a missing claim is JavaScript `undefined`, modelled by `none`. -/
structure MeResponse where
  ok : Bool
  auth : List (String × Option JVal)
  deriving Repr, DecidableEq

/-- auth.middleware.js `requireAuth`, at the granularity of an already
extracted bearer token: `header = none` models a missing/non-Bearer
Authorization header (401 "Token ausente."), a failing `jwt.verify` gives
401 "Token inválido ou expirado.", and on success `req.auth` is built from
the payload claims `sub` and `profile`. -/
def requireAuth (secret : String) (nowSec : Int) (header : Option Token) :
    Except String (List (String × Option JVal)) :=
  match header with
  | none => Except.error "Token ausente."
  | some t =>
      match jwtVerify t secret nowSec with
      | none => Except.error "Token inválido ou expirado."
      | some payload =>
          Except.ok [("userId", List.lookup "sub" payload),
                     ("profile", List.lookup "profile" payload)]

/-- The `/auth/me` route behind `requireAuth`. -/
def authMe (secret : String) (nowSec : Int) (header : Option Token) :
    Except String MeResponse :=
  (requireAuth secret nowSec header).map (fun auth => { ok := true, auth := auth })

/-- The payload of the token carried by a successful login result (empty
list when the result carries no data). -/
def tokenPayloadOf (r : LoginResult) : List (String × JVal) :=
  match r.data with
  | some d => d.token.payload
  | none => []

/-- The token carried by a successful login result. -/
def tokenOf (r : LoginResult) : Token :=
  match r.data with
  | some d => d.token
  | none => { payload := [], signedWith := "" }

/-- Branch lemma: unknown email. -/
lemma loginWithLock_none (cfg : Config) (verify : String → String → Bool)
    (password : String) (now : Int) :
    loginWithLock cfg verify none password now =
      ({ ok := false, statusCode := 401, message := some invalidMsg, data := none }, none) := by
  rfl

/-- Branch lemma: inactive account (status gate, line 54). -/
lemma loginWithLock_inactive (cfg : Config) (verify : String → String → Bool)
    (u : Account) (password : String) (now : Int) (h : u.status ≠ "ACTIVE") :
    loginWithLock cfg verify (some u) password now =
      ({ ok := false, statusCode := 403, message := some "Usuário inativo.", data := none },
       some u) := by
  simp [loginWithLock, h]

/-- Branch lemma: currently locked account (lock gate, line 60). -/
lemma loginWithLock_locked (cfg : Config) (verify : String → String → Bool)
    (u : Account) (password : String) (now : Int)
    (hact : u.status = "ACTIVE") (hl : isLocked now u.locked_until = true) :
    loginWithLock cfg verify (some u) password now =
      ({ ok := false, statusCode := 423,
         message := some "Usuário bloqueado temporariamente.", data := none },
       some u) := by
  simp [loginWithLock, hact, hl]

/-- Branch lemma: wrong password, threshold not reached (lines 91-98). -/
lemma loginWithLock_wrong_nolock (cfg : Config) (verify : String → String → Bool)
    (u : Account) (password : String) (now : Int)
    (hact : u.status = "ACTIVE") (hl : isLocked now u.locked_until = false)
    (hw : verify password u.password_hash = false)
    (hlt : min (u.failed_attempts + 1) 255 < cfg.MAX) :
    loginWithLock cfg verify (some u) password now =
      ({ ok := false, statusCode := 401, message := some invalidMsg, data := none },
       some (updateFailedAttempts u (min (u.failed_attempts + 1) 255))) := by
  simp only [loginWithLock, hact, ne_eq, not_true_eq_false, if_false, hl, Bool.false_eq_true,
    hw, if_true]
  rw [if_neg (by omega)]

/-- Branch lemma: wrong password, threshold reached, lock engages (lines 75-89). -/
lemma loginWithLock_wrong_lock (cfg : Config) (verify : String → String → Bool)
    (u : Account) (password : String) (now : Int)
    (hact : u.status = "ACTIVE") (hl : isLocked now u.locked_until = false)
    (hw : verify password u.password_hash = false)
    (hge : cfg.MAX ≤ min (u.failed_attempts + 1) 255) :
    loginWithLock cfg verify (some u) password now =
      ({ ok := false, statusCode := 423,
         message := some "3 tentativas incorretas. Usuário bloqueado.", data := none },
       some (updateFailLock u (min (u.failed_attempts + 1) 255)
              (nowPlusMinutes now cfg.LOCK_MINUTES))) := by
  simp only [loginWithLock, hact, ne_eq, not_true_eq_false, if_false, hl, Bool.false_eq_true,
    hw, if_true]
  rw [if_pos hge]

/-- Branch lemma: correct password, success (lines 101-135). -/
lemma loginWithLock_success (cfg : Config) (verify : String → String → Bool)
    (u : Account) (password : String) (now : Int)
    (hact : u.status = "ACTIVE") (hl : isLocked now u.locked_until = false)
    (hok : verify password u.password_hash = true) :
    loginWithLock cfg verify (some u) password now =
      ({ ok := true, statusCode := 200, message := none,
         data := some
           { token := jwtSign
               [("sub", JVal.str (toString u.id)), ("profile", JVal.str u.profile)]
               cfg.JWT_SECRET now cfg.JWT_EXPIRES_IN,
             user := [("id", JVal.num u.id), ("name", JVal.str u.name),
                      ("email", JVal.str u.email), ("profile", JVal.str u.profile)] } },
       some (if 0 < u.failed_attempts ∨ u.locked_until.isSome = true then
               { u with failed_attempts := 0, locked_until := none }
             else u)) := by
  simp only [loginWithLock, hact, ne_eq, not_true_eq_false, if_false, hl, Bool.false_eq_true,
    hok, Bool.true_eq_false]

/-- `loginStep` on a locked active account. -/
lemma loginStep_locked (cfg : Config) (verify : String → String → Bool)
    (u : Account) (password : String) (now : Int)
    (hact : u.status = "ACTIVE") (hl : isLocked now u.locked_until = true) :
    loginStep cfg verify u password now =
      ({ ok := false, statusCode := 423,
         message := some "Usuário bloqueado temporariamente.", data := none }, u) := by
  simp [loginStep, loginWithLock_locked cfg verify u password now hact hl]

/-- `loginStep` on a wrong password below the threshold. -/
lemma loginStep_wrong_nolock (cfg : Config) (verify : String → String → Bool)
    (u : Account) (password : String) (now : Int)
    (hact : u.status = "ACTIVE") (hl : isLocked now u.locked_until = false)
    (hw : verify password u.password_hash = false)
    (hlt : min (u.failed_attempts + 1) 255 < cfg.MAX) :
    loginStep cfg verify u password now =
      ({ ok := false, statusCode := 401, message := some invalidMsg, data := none },
       updateFailedAttempts u (min (u.failed_attempts + 1) 255)) := by
  simp [loginStep, loginWithLock_wrong_nolock cfg verify u password now hact hl hw hlt]

/-- `loginStep` on a wrong password reaching the threshold. -/
lemma loginStep_wrong_lock (cfg : Config) (verify : String → String → Bool)
    (u : Account) (password : String) (now : Int)
    (hact : u.status = "ACTIVE") (hl : isLocked now u.locked_until = false)
    (hw : verify password u.password_hash = false)
    (hge : cfg.MAX ≤ min (u.failed_attempts + 1) 255) :
    loginStep cfg verify u password now =
      ({ ok := false, statusCode := 423,
         message := some "3 tentativas incorretas. Usuário bloqueado.", data := none },
       updateFailLock u (min (u.failed_attempts + 1) 255)
         (nowPlusMinutes now cfg.LOCK_MINUTES)) := by
  simp [loginStep, loginWithLock_wrong_lock cfg verify u password now hact hl hw hge]

/-- `loginStep` on a correct password: the result is a success. -/
lemma loginStep_success_ok (cfg : Config) (verify : String → String → Bool)
    (u : Account) (password : String) (now : Int)
    (hact : u.status = "ACTIVE") (hl : isLocked now u.locked_until = false)
    (hok : verify password u.password_hash = true) :
    (loginStep cfg verify u password now).1.ok = true := by
  simp [loginStep, loginWithLock_success cfg verify u password now hact hl hok]

/-- A fresh active account subjected to fewer than `MAX` wrong attempts just
accumulates the counter: no lock is set. -/
lemma iterWrong_below_max (cfg : Config) (verify : String → String → Bool)
    (u : Account) (password : String) (now : Int)
    (hact : u.status = "ACTIVE") (hfa : u.failed_attempts = 0)
    (hlu : u.locked_until = none)
    (hw : verify password u.password_hash = false)
    (h255 : cfg.MAX ≤ 255) :
    ∀ i, i < cfg.MAX →
      iterWrong cfg verify password now i u = { u with failed_attempts := i } := by
  intro i
  induction i with
  | zero =>
      intro _
      cases u
      simp_all [iterWrong]
  | succ n ih =>
      intro hn
      have hlt : n < cfg.MAX := Nat.lt_of_succ_lt hn
      have hstep := loginStep_wrong_nolock cfg verify { u with failed_attempts := n }
        password now hact (by simp [hlu, isLocked]) hw
        (by simp only; omega)
      rw [iterWrong, ih hlt, hstep]
      have hmin : min (n + 1) 255 = n + 1 := by omega
      simp [updateFailedAttempts, hmin]

/-- Claim C5: the lock predicate is true iff `lockedUntil` is present and
strictly greater than the current time; exact equality at the boundary is
non-locked. -/
theorem isLocked_iff_strictly_future (now : Int) (lu : Option Int) :
    (isLocked now lu = true ↔ ∃ t, lu = some t ∧ now < t) ∧
    isLocked now (some now) = false ∧
    isLocked now none = false := by
  refine ⟨?_, by simp [isLocked], by simp [isLocked]⟩
  cases lu with
  | none => simp [isLocked]
  | some t => simp [isLocked]

/-- Claim C1: from a fresh active account, exactly `MAX` consecutive
wrong-password attempts set the lock to `now + LOCK_MINUTES`; the `MAX`-th
attempt itself answers 423; any attempt strictly before the lock expiry —
even with the correct password — answers 423; once `LOCK_MINUTES` have
elapsed the correct password succeeds. -/
theorem after_max_failures_locked (cfg : Config) (verify : String → String → Bool)
    (u : Account) (pw pwc pwAny : String) (now t1 t2 : Int)
    (hact : u.status = "ACTIVE") (hfa : u.failed_attempts = 0)
    (hlu : u.locked_until = none)
    (hw : verify pw u.password_hash = false)
    (hc : verify pwc u.password_hash = true)
    (hmax1 : 1 ≤ cfg.MAX) (h255 : cfg.MAX ≤ 255)
    (ht1 : t1 < nowPlusMinutes now cfg.LOCK_MINUTES)
    (ht2 : nowPlusMinutes now cfg.LOCK_MINUTES ≤ t2) :
    (iterWrong cfg verify pw now cfg.MAX u).locked_until =
        some (nowPlusMinutes now cfg.LOCK_MINUTES)
    ∧ (loginStep cfg verify (iterWrong cfg verify pw now (cfg.MAX - 1) u) pw now).1.statusCode
        = 423
    ∧ (loginStep cfg verify (iterWrong cfg verify pw now cfg.MAX u) pwAny t1).1.statusCode = 423
    ∧ (loginStep cfg verify (iterWrong cfg verify pw now cfg.MAX u) pwc t2).1.ok = true := by
  obtain ⟨k, hk⟩ : ∃ k, cfg.MAX = k + 1 := ⟨cfg.MAX - 1, by omega⟩
  have hprev : iterWrong cfg verify pw now k u = { u with failed_attempts := k } :=
    iterWrong_below_max cfg verify u pw now hact hfa hlu hw h255 k (by omega)
  have hgate : isLocked now ({ u with failed_attempts := k } : Account).locked_until = false := by
    simp [hlu, isLocked]
  have hge : cfg.MAX ≤ min (({ u with failed_attempts := k } : Account).failed_attempts + 1) 255 := by
    simp only
    omega
  have hstepL := loginStep_wrong_lock cfg verify { u with failed_attempts := k } pw now
    hact hgate hw hge
  have hlock : iterWrong cfg verify pw now cfg.MAX u =
      updateFailLock { u with failed_attempts := k } (min (k + 1) 255)
        (nowPlusMinutes now cfg.LOCK_MINUTES) := by
    rw [hk, iterWrong, hprev, hstepL]
  have hcur : iterWrong cfg verify pw now cfg.MAX u =
      { u with failed_attempts := min (k + 1) 255,
               locked_until := some (nowPlusMinutes now cfg.LOCK_MINUTES) } := by
    rw [hlock]; rfl
  refine ⟨by rw [hcur], ?_, ?_, ?_⟩
  · have hk1 : cfg.MAX - 1 = k := by omega
    rw [hk1, hprev, hstepL]
  · have hlockedNow : isLocked t1
        (iterWrong cfg verify pw now cfg.MAX u).locked_until = true := by
      rw [hcur]
      simp [isLocked, ht1]
    rw [loginStep_locked cfg verify _ pwAny t1 (by rw [hcur]; exact hact) hlockedNow]
  · have hfree : isLocked t2
        (iterWrong cfg verify pw now cfg.MAX u).locked_until = false := by
      rw [hcur]
      simp [isLocked]
      omega
    exact loginStep_success_ok cfg verify _ pwc t2 (by rw [hcur]; exact hact) hfree
      (by rw [hcur]; exact hc)

/-- Claim C1 witness: with `MAX = 3`, `LOCK_MINUTES = 5`, three wrong
attempts at time 0 lock the account; at 299999 ms the correct password is
still rejected 423, at 300000 ms it succeeds. -/
theorem after_max_failures_locked_witness :
    (loginStep ⟨3, 5, "s", 3600⟩ (fun p h => p == h)
      (iterWrong ⟨3, 5, "s", 3600⟩ (fun p h => p == h) "errada" 0 3
        ⟨1, "Ana", "a@x.com", "senha", "USER", "ACTIVE", 0, none⟩) "senha" 299999).1.statusCode
      = 423
    ∧ (loginStep ⟨3, 5, "s", 3600⟩ (fun p h => p == h)
      (iterWrong ⟨3, 5, "s", 3600⟩ (fun p h => p == h) "errada" 0 3
        ⟨1, "Ana", "a@x.com", "senha", "USER", "ACTIVE", 0, none⟩) "senha" 300000).1.ok
      = true := by
  have h := after_max_failures_locked ⟨3, 5, "s", 3600⟩ (fun p h => p == h)
    ⟨1, "Ana", "a@x.com", "senha", "USER", "ACTIVE", 0, none⟩ "errada" "senha" "senha"
    0 299999 300000
    rfl rfl rfl (by decide) (by decide) (by decide) (by decide) (by decide) (by decide)
  exact ⟨h.2.2.1, h.2.2.2⟩

/-- Claim C2: a login attempt against a currently locked active account
answers 423, does not depend on the supplied password or on the verifier
(no verification work is performed), and leaves the account row unchanged. -/
theorem locked_account_short_circuits (cfg : Config)
    (verify1 verify2 : String → String → Bool) (u : Account)
    (pw1 pw2 : String) (now : Int)
    (hact : u.status = "ACTIVE") (hl : isLocked now u.locked_until = true) :
    loginWithLock cfg verify1 (some u) pw1 now =
      loginWithLock cfg verify2 (some u) pw2 now
    ∧ loginWithLock cfg verify1 (some u) pw1 now =
      ({ ok := false, statusCode := 423,
         message := some "Usuário bloqueado temporariamente.", data := none },
       some u) := by
  rw [loginWithLock_locked cfg verify1 u pw1 now hact hl,
      loginWithLock_locked cfg verify2 u pw2 now hact hl]
  exact ⟨rfl, rfl⟩

/-- Claim C2 witness: a concrete locked account at time 10 (lock expiring
at 1000) answers 423 with the row untouched, for two different verifiers. -/
theorem locked_account_short_circuits_witness :
    loginWithLock ⟨3, 5, "s", 3600⟩ (fun p h => p == h)
        (some ⟨1, "Ana", "a@x.com", "senha", "USER", "ACTIVE", 2, some 1000⟩) "senha" 10 =
      loginWithLock ⟨3, 5, "s", 3600⟩ (fun _ _ => true)
        (some ⟨1, "Ana", "a@x.com", "senha", "USER", "ACTIVE", 2, some 1000⟩) "outra" 10
    ∧ loginWithLock ⟨3, 5, "s", 3600⟩ (fun p h => p == h)
        (some ⟨1, "Ana", "a@x.com", "senha", "USER", "ACTIVE", 2, some 1000⟩) "senha" 10 =
      ({ ok := false, statusCode := 423,
         message := some "Usuário bloqueado temporariamente.", data := none },
       some ⟨1, "Ana", "a@x.com", "senha", "USER", "ACTIVE", 2, some 1000⟩) :=
  locked_account_short_circuits ⟨3, 5, "s", 3600⟩ (fun p h => p == h) (fun _ _ => true)
    ⟨1, "Ana", "a@x.com", "senha", "USER", "ACTIVE", 2, some 1000⟩ "senha" "outra" 10
    rfl (by decide)

/-- Claim C3: on a wrong password against an unlocked active account the
counter becomes `min (failed_attempts + 1) 255` (never exceeding 255); if
that value reaches the threshold the row's lock is set to
`now + LOCK_MINUTES` and the attempt answers 423 (locking), otherwise the
row's `locked_until` is untouched and the account is still not locked. -/
theorem wrong_password_failure_handler (cfg : Config)
    (verify : String → String → Bool) (u : Account) (pw : String) (now : Int)
    (hact : u.status = "ACTIVE") (hl : isLocked now u.locked_until = false)
    (hw : verify pw u.password_hash = false) :
    (loginStep cfg verify u pw now).2.failed_attempts = min (u.failed_attempts + 1) 255
    ∧ (loginStep cfg verify u pw now).2.failed_attempts ≤ 255
    ∧ (cfg.MAX ≤ min (u.failed_attempts + 1) 255 →
        (loginStep cfg verify u pw now).2.locked_until =
            some (nowPlusMinutes now cfg.LOCK_MINUTES)
        ∧ (loginStep cfg verify u pw now).1.statusCode = 423)
    ∧ (min (u.failed_attempts + 1) 255 < cfg.MAX →
        (loginStep cfg verify u pw now).2.locked_until = u.locked_until
        ∧ isLocked now (loginStep cfg verify u pw now).2.locked_until = false) := by
  rcases Nat.lt_or_ge (min (u.failed_attempts + 1) 255) cfg.MAX with hlt | hge
  · rw [loginStep_wrong_nolock cfg verify u pw now hact hl hw hlt]
    refine ⟨rfl, by simp [updateFailedAttempts], ?_, ?_⟩
    · intro hcontra
      omega
    · intro _
      exact ⟨rfl, hl⟩
  · rw [loginStep_wrong_lock cfg verify u pw now hact hl hw hge]
    refine ⟨rfl, by simp [updateFailLock], ?_, ?_⟩
    · intro _
      exact ⟨rfl, rfl⟩
    · intro hcontra
      omega

/-- Claim C3 witness: at `failed_attempts = 254` the counter saturates to
255 and, with `MAX = 3`, the attempt locks the row. -/
theorem wrong_password_failure_handler_witness :
    (loginStep ⟨3, 5, "s", 3600⟩ (fun p h => p == h)
        ⟨1, "Ana", "a@x.com", "senha", "USER", "ACTIVE", 254, none⟩ "errada" 0).2.failed_attempts
      = 255
    ∧ (loginStep ⟨3, 5, "s", 3600⟩ (fun p h => p == h)
        ⟨1, "Ana", "a@x.com", "senha", "USER", "ACTIVE", 254, none⟩ "errada" 0).2.locked_until
      = some 300000 := by
  have h := wrong_password_failure_handler ⟨3, 5, "s", 3600⟩ (fun p h => p == h)
    ⟨1, "Ana", "a@x.com", "senha", "USER", "ACTIVE", 254, none⟩ "errada" 0
    rfl (by decide) (by decide)
  exact ⟨h.1, (h.2.2.1 (by decide)).1⟩

/-- Claim C4: an unknown email and a wrong password against an unlocked
active account that does not trigger the lock produce identical results —
same `ok`, same status code 401, and the same message string. -/
theorem unknown_email_indistinguishable (cfg : Config)
    (verify : String → String → Bool) (u : Account) (pw pw2 : String) (now : Int)
    (hact : u.status = "ACTIVE") (hl : isLocked now u.locked_until = false)
    (hw : verify pw2 u.password_hash = false)
    (hlt : min (u.failed_attempts + 1) 255 < cfg.MAX) :
    (loginWithLock cfg verify none pw now).1 =
      (loginWithLock cfg verify (some u) pw2 now).1
    ∧ (loginWithLock cfg verify none pw now).1.statusCode = 401
    ∧ (loginWithLock cfg verify none pw now).1.message = some "Credenciais inválidas." := by
  rw [loginWithLock_none, loginWithLock_wrong_nolock cfg verify u pw2 now hact hl hw hlt]
  exact ⟨rfl, rfl, rfl⟩

/-- Claim C4 witness: a concrete unknown email and a concrete first wrong
attempt produce the same result value. -/
theorem unknown_email_indistinguishable_witness :
    (loginWithLock ⟨3, 5, "s", 3600⟩ (fun p h => p == h) none "qualquer" 0).1 =
      (loginWithLock ⟨3, 5, "s", 3600⟩ (fun p h => p == h)
        (some ⟨1, "Ana", "a@x.com", "senha", "USER", "ACTIVE", 0, none⟩) "errada" 0).1
    ∧ (loginWithLock ⟨3, 5, "s", 3600⟩ (fun p h => p == h) none "qualquer" 0).1.statusCode
      = 401 := by
  have h := unknown_email_indistinguishable ⟨3, 5, "s", 3600⟩ (fun p h => p == h)
    ⟨1, "Ana", "a@x.com", "senha", "USER", "ACTIVE", 0, none⟩ "qualquer" "errada" 0
    rfl (by decide) (by decide) (by decide)
  exact ⟨h.1, h.2.1⟩

/-- Claim C6: a non-ACTIVE account is rejected 403 whatever the password,
the verifier and the lock state (the status gate precedes the lock gate),
and the row is unchanged. -/
theorem inactive_account_rejected (cfg : Config)
    (verify1 verify2 : String → String → Bool) (u : Account)
    (pw1 pw2 : String) (now : Int) (h : u.status ≠ "ACTIVE") :
    loginWithLock cfg verify1 (some u) pw1 now =
      loginWithLock cfg verify2 (some u) pw2 now
    ∧ loginWithLock cfg verify1 (some u) pw1 now =
      ({ ok := false, statusCode := 403, message := some "Usuário inativo.", data := none },
       some u) := by
  rw [loginWithLock_inactive cfg verify1 u pw1 now h,
      loginWithLock_inactive cfg verify2 u pw2 now h]
  exact ⟨rfl, rfl⟩

/-- Claim C6 witness: an INACTIVE account that is also currently locked and
receives the correct password still answers 403, row unchanged. -/
theorem inactive_account_rejected_witness :
    loginWithLock ⟨3, 5, "s", 3600⟩ (fun p h => p == h)
        (some ⟨1, "Ana", "a@x.com", "senha", "USER", "INACTIVE", 3, some 1000⟩) "senha" 10 =
      loginWithLock ⟨3, 5, "s", 3600⟩ (fun _ _ => false)
        (some ⟨1, "Ana", "a@x.com", "senha", "USER", "INACTIVE", 3, some 1000⟩) "outra" 10
    ∧ loginWithLock ⟨3, 5, "s", 3600⟩ (fun p h => p == h)
        (some ⟨1, "Ana", "a@x.com", "senha", "USER", "INACTIVE", 3, some 1000⟩) "senha" 10 =
      ({ ok := false, statusCode := 403, message := some "Usuário inativo.", data := none },
       some ⟨1, "Ana", "a@x.com", "senha", "USER", "INACTIVE", 3, some 1000⟩) :=
  inactive_account_rejected ⟨3, 5, "s", 3600⟩ (fun p h => p == h) (fun _ _ => false)
    ⟨1, "Ana", "a@x.com", "senha", "USER", "INACTIVE", 3, some 1000⟩ "senha" "outra" 10
    (by decide)

/-- Claim C9: when the lock has expired but the stale counter is still at
or above the threshold, a single further wrong-password attempt answers 423
and re-engages the lock at `now + LOCK_MINUTES`, incrementing (saturating)
rather than restarting the counter. -/
theorem expired_lock_single_failure_relocks (cfg : Config)
    (verify : String → String → Bool) (u : Account) (pw : String) (now : Int)
    (hact : u.status = "ACTIVE") (hexp : isLocked now u.locked_until = false)
    (hstale : cfg.MAX ≤ u.failed_attempts) (h255 : cfg.MAX ≤ 255)
    (hw : verify pw u.password_hash = false) :
    (loginStep cfg verify u pw now).1.statusCode = 423
    ∧ (loginStep cfg verify u pw now).2.locked_until =
        some (nowPlusMinutes now cfg.LOCK_MINUTES)
    ∧ (loginStep cfg verify u pw now).2.failed_attempts =
        min (u.failed_attempts + 1) 255 := by
  have hge : cfg.MAX ≤ min (u.failed_attempts + 1) 255 := by omega
  rw [loginStep_wrong_lock cfg verify u pw now hact hexp hw hge]
  exact ⟨rfl, rfl, rfl⟩

/-- Claim C9 witness: expired lock (lock until 1000, now 2000), stale
counter 3 with `MAX = 3`: one wrong attempt relocks until 302000. -/
theorem expired_lock_single_failure_relocks_witness :
    (loginStep ⟨3, 5, "s", 3600⟩ (fun p h => p == h)
        ⟨1, "Ana", "a@x.com", "senha", "USER", "ACTIVE", 3, some 1000⟩ "errada" 2000).1.statusCode
      = 423
    ∧ (loginStep ⟨3, 5, "s", 3600⟩ (fun p h => p == h)
        ⟨1, "Ana", "a@x.com", "senha", "USER", "ACTIVE", 3, some 1000⟩ "errada" 2000).2.locked_until
      = some 302000 := by
  have h := expired_lock_single_failure_relocks ⟨3, 5, "s", 3600⟩ (fun p h => p == h)
    ⟨1, "Ana", "a@x.com", "senha", "USER", "ACTIVE", 3, some 1000⟩ "errada" 2000
    rfl (by decide) (by decide) (by decide) (by decide)
  exact ⟨h.1, h.2.1⟩

/-- Claim C10: whatever the configured threshold, the attempt that newly
engages the lock answers with the fixed message
"3 tentativas incorretas. Usuário bloqueado.", and a later attempt while
still locked answers the distinct message
"Usuário bloqueado temporariamente.". -/
theorem lock_message_is_fixed (cfg : Config)
    (verify : String → String → Bool) (u : Account) (pw pwc : String)
    (now t2 : Int)
    (hact : u.status = "ACTIVE") (hl : isLocked now u.locked_until = false)
    (hw : verify pw u.password_hash = false)
    (hge : cfg.MAX ≤ min (u.failed_attempts + 1) 255)
    (ht2 : t2 < nowPlusMinutes now cfg.LOCK_MINUTES) :
    (loginStep cfg verify u pw now).1.message =
      some "3 tentativas incorretas. Usuário bloqueado."
    ∧ (loginStep cfg verify (loginStep cfg verify u pw now).2 pwc t2).1.message =
      some "Usuário bloqueado temporariamente."
    ∧ (loginStep cfg verify u pw now).1.message ≠
      (loginStep cfg verify (loginStep cfg verify u pw now).2 pwc t2).1.message := by
  have h1 := loginStep_wrong_lock cfg verify u pw now hact hl hw hge
  have hpost : (loginStep cfg verify u pw now).2 =
      updateFailLock u (min (u.failed_attempts + 1) 255)
        (nowPlusMinutes now cfg.LOCK_MINUTES) := by rw [h1]
  have h2 := loginStep_locked cfg verify
    (updateFailLock u (min (u.failed_attempts + 1) 255)
      (nowPlusMinutes now cfg.LOCK_MINUTES)) pwc t2
    (by simp [updateFailLock, hact]) (by simp [updateFailLock, isLocked, ht2])
  rw [hpost, h1, h2]
  refine ⟨rfl, rfl, ?_⟩
  intro hc
  have hc' : ("3 tentativas incorretas. Usuário bloqueado." : String) =
      "Usuário bloqueado temporariamente." := Option.some.inj hc
  exact absurd hc' (by decide)

/-- Claim C10 witness: with threshold `MAX = 5` and counter 4 the locking
message still names three attempts, and a retry while locked gets the other
message. -/
theorem lock_message_is_fixed_witness :
    (loginStep ⟨5, 5, "s", 3600⟩ (fun p h => p == h)
        ⟨1, "Ana", "a@x.com", "senha", "USER", "ACTIVE", 4, none⟩ "errada" 0).1.message =
      some "3 tentativas incorretas. Usuário bloqueado."
    ∧ (loginStep ⟨5, 5, "s", 3600⟩ (fun p h => p == h)
        (loginStep ⟨5, 5, "s", 3600⟩ (fun p h => p == h)
          ⟨1, "Ana", "a@x.com", "senha", "USER", "ACTIVE", 4, none⟩ "errada" 0).2
        "senha" 100).1.message =
      some "Usuário bloqueado temporariamente." := by
  have h := lock_message_is_fixed ⟨5, 5, "s", 3600⟩ (fun p h => p == h)
    ⟨1, "Ana", "a@x.com", "senha", "USER", "ACTIVE", 4, none⟩ "errada" "senha" 0 100
    rfl (by decide) (by decide) (by decide) (by decide)
  exact ⟨h.1, h.2.1⟩

/-- Sequential sanity tie: for a wrong password against an unlocked active
account, the row written by `loginWithLock` is exactly `failureWrite`
applied with read state and database state coinciding. -/
lemma loginStep_wrong_post_eq_failureWrite (cfg : Config)
    (verify : String → String → Bool) (u : Account) (pw : String) (now : Int)
    (hact : u.status = "ACTIVE") (hl : isLocked now u.locked_until = false)
    (hw : verify pw u.password_hash = false) :
    (loginStep cfg verify u pw now).2 = failureWrite cfg u now u := by
  simp only [failureWrite]
  rcases Nat.lt_or_ge (min (u.failed_attempts + 1) 255) cfg.MAX with hlt | hge
  · rw [loginStep_wrong_nolock cfg verify u pw now hact hl hw hlt, if_neg (by omega)]
  · rw [loginStep_wrong_lock cfg verify u pw now hact hl hw hge, if_pos hge]

/-- Claim C7 counterexample: the failure UPDATE is keyed only on the id,
with no condition on the previously observed counter, so two concurrent
wrong-password attempts that both read the same fresh row (counter 0,
`MAX = 3`) leave `failed_attempts = 1` — not the 2 increments the claim
requires. -/
theorem conditional_update_claim_fails :
    (failureWrite ⟨3, 5, "s", 3600⟩
        ⟨1, "Ana", "a@x.com", "senha", "USER", "ACTIVE", 0, none⟩ 20
        (failureWrite ⟨3, 5, "s", 3600⟩
          ⟨1, "Ana", "a@x.com", "senha", "USER", "ACTIVE", 0, none⟩ 10
          ⟨1, "Ana", "a@x.com", "senha", "USER", "ACTIVE", 0, none⟩)).failed_attempts = 1
    ∧ (failureWrite ⟨3, 5, "s", 3600⟩
        ⟨1, "Ana", "a@x.com", "senha", "USER", "ACTIVE", 0, none⟩ 20
        (failureWrite ⟨3, 5, "s", 3600⟩
          ⟨1, "Ana", "a@x.com", "senha", "USER", "ACTIVE", 0, none⟩ 10
          ⟨1, "Ana", "a@x.com", "senha", "USER", "ACTIVE", 0, none⟩)).failed_attempts ≠ 2 := by
  decide

/-- Claim C7 amended: the persisted failure update is unconditional, so any
two concurrent wrong-password attempts that read the same prior row state
leave the counter at one saturated increment over that state — the second
increment is lost, for every starting state and pair of write times. -/
theorem concurrent_failures_lose_update (cfg : Config) (s0 : Account) (t1 t2 : Int) :
    (failureWrite cfg s0 t2 (failureWrite cfg s0 t1 s0)).failed_attempts =
      min (s0.failed_attempts + 1) 255 := by
  simp only [failureWrite, updateFailLock, updateFailedAttempts]
  by_cases h : cfg.MAX ≤ min (s0.failed_attempts + 1) 255 <;> simp [h]

/-- Claim C8 counterexample: a concrete successful login issues a token
whose payload has no claim named `role` (the source signs `profile`
instead, auth.service.js line 115). -/
theorem token_role_claim_fails :
    (loginWithLock ⟨3, 5, "s", 3600⟩ (fun p h => p == h)
        (some ⟨1, "Ana", "a@x.com", "senha", "USER", "ACTIVE", 0, none⟩) "senha" 0).1.ok = true
    ∧ List.lookup "role"
        (tokenPayloadOf (loginWithLock ⟨3, 5, "s", 3600⟩ (fun p h => p == h)
          (some ⟨1, "Ana", "a@x.com", "senha", "USER", "ACTIVE", 0, none⟩) "senha" 0).1) =
      none := by
  decide

/-- Claim C8 amended: a successful login issues a token whose payload
carries `sub` = the account id as a string, a claim named `profile` copied
from the stored account (there is no `role` claim), and the standard `exp`
claim at issuance time plus `JWT_EXPIRES_IN`; `GET /auth/me` with that
token, while it is unexpired, answers
`{ ok: true, auth: { userId: sub, profile } }`. -/
theorem token_payload_and_me_route (cfg : Config)
    (verify : String → String → Bool) (u : Account) (pw : String)
    (now nowSec : Int)
    (hact : u.status = "ACTIVE") (hl : isLocked now u.locked_until = false)
    (hok : verify pw u.password_hash = true)
    (hfresh : nowSec < now / 1000 + cfg.JWT_EXPIRES_IN) :
    (loginWithLock cfg verify (some u) pw now).1.statusCode = 200
    ∧ List.lookup "sub"
        (tokenPayloadOf (loginWithLock cfg verify (some u) pw now).1) =
      some (JVal.str (toString u.id))
    ∧ List.lookup "profile"
        (tokenPayloadOf (loginWithLock cfg verify (some u) pw now).1) =
      some (JVal.str u.profile)
    ∧ List.lookup "exp"
        (tokenPayloadOf (loginWithLock cfg verify (some u) pw now).1) =
      some (JVal.num (now / 1000 + cfg.JWT_EXPIRES_IN))
    ∧ List.lookup "role"
        (tokenPayloadOf (loginWithLock cfg verify (some u) pw now).1) = none
    ∧ authMe cfg.JWT_SECRET nowSec
        (some (tokenOf (loginWithLock cfg verify (some u) pw now).1)) =
      Except.ok
        { ok := true,
          auth := [("userId", some (JVal.str (toString u.id))),
                   ("profile", some (JVal.str u.profile))] } := by
  rw [loginWithLock_success cfg verify u pw now hact hl hok]
  have hver : jwtVerify
      (jwtSign [("sub", JVal.str (toString u.id)), ("profile", JVal.str u.profile)]
        cfg.JWT_SECRET now cfg.JWT_EXPIRES_IN) cfg.JWT_SECRET nowSec =
      some ([("sub", JVal.str (toString u.id)), ("profile", JVal.str u.profile)] ++
        [("exp", JVal.num (now / 1000 + cfg.JWT_EXPIRES_IN))]) := by
    simp [jwtVerify, jwtSign, notExpired, List.lookup, hfresh]
  refine ⟨rfl, rfl, rfl, rfl, rfl, ?_⟩
  simp only [authMe, requireAuth, tokenOf, hver]
  rfl

/-- Claim C8 amended witness: concrete account id 1, profile USER, secret
"s": the issued token decodes at `/auth/me` to
`{ ok := true, auth := [(userId, "1"), (profile, "USER")] }`. -/
theorem token_payload_and_me_route_witness :
    List.lookup "profile"
        (tokenPayloadOf (loginWithLock ⟨3, 5, "s", 3600⟩ (fun p h => p == h)
          (some ⟨1, "Ana", "a@x.com", "senha", "USER", "ACTIVE", 0, none⟩) "senha" 0).1) =
      some (JVal.str "USER")
    ∧ authMe "s" 100
        (some (tokenOf (loginWithLock ⟨3, 5, "s", 3600⟩ (fun p h => p == h)
          (some ⟨1, "Ana", "a@x.com", "senha", "USER", "ACTIVE", 0, none⟩) "senha" 0).1)) =
      Except.ok
        { ok := true,
          auth := [("userId", some (JVal.str "1")),
                   ("profile", some (JVal.str "USER"))] } := by
  have h := token_payload_and_me_route ⟨3, 5, "s", 3600⟩ (fun p h => p == h)
    ⟨1, "Ana", "a@x.com", "senha", "USER", "ACTIVE", 0, none⟩ "senha" 0 100
    rfl (by decide) (by decide) (by decide)
  exact ⟨h.2.2.1, h.2.2.2.2.2⟩

end CrudSenai
